import Mathlib

/-!
A shallow embedding of the custos_script bytecode virtual machine and
compiler (src/custos_script/src/bytecode.rs, vm.rs, compiler.rs), with
theorems checking the natural-language specification against the code.

Modelling conventions:
* Rust f64 numbers are modelled as rationals; none of the verified
  properties depend on IEEE-754 rounding, NaN or signed zero.
* u8 arities/argument counts and usize indices are modelled as Nat; no
  verified property exercises integer wrap-around, except the `as u16`
  truncation in patch_jump which is modelled explicitly with a modulus.
* The operand stack (a VecDeque used only at its back) is represented as
  a list whose HEAD is the TOP of the stack; front-index accesses
  (VecDeque::get from index 0 at the bottom) are translated accordingly.
* The call-frame vector is likewise represented with the innermost
  (last-pushed) frame at the head of the list.
* The globals HashMap is represented as an association list: insertion
  conses in front and lookup takes the first match, which realises the
  same lookup semantics (last write wins).
* Rust `panic!` / `unwrap` / `expect` aborts are distinguished from the
  error strings interpret() returns: the step function returns either
  `ok`/`done`, an `err` (interpret returns Some(message)), or a `panic`.
* Error values: the source builds error message strings; each distinct
  message site is modelled as a constructor of VMError, so two handler
  sites share a constructor exactly when they share a message.
-/

namespace Custos

/-- Function kind (bytecode.rs FunctionType). -/
inductive FunctionType where
  | script
  | function
deriving DecidableEq, Repr

/-- bytecode.rs BuiltInMethod: name, host callable, arity (u8).
The host callable (an Rc closure) is modelled by an identifier funcId
resolved against a host table passed to the interpreter. -/
structure BuiltInMethod where
  name : String
  funcId : Nat
  arity : Nat
deriving DecidableEq, Repr

mutual

/-- bytecode.rs Constant: the runtime value. Number holds an f64,
modelled as a rational. Array is an Rc-shared vector, modelled as a
list. -/
inductive Constant where
  | number (n : ℚ)
  | bool (b : Bool)
  | string (s : String)
  | function (f : Func)
  | builtInMethod (m : BuiltInMethod)
  | array (elems : List Constant)
  | none

/-- bytecode.rs Function (named Func here because the Constant
constructor takes the source name): arity (u8), chunk, name, kind.
The chunk is its instruction list; the parallel source-line array used
only for diagnostics is omitted. -/
inductive Func where
  | mk (arity : Nat) (chunk : List Instruction) (name : String)
      (kind : FunctionType)

/-- bytecode.rs Instruction. Jump offsets are u16 in the source. -/
inductive Instruction where
  | const (c : Constant)
  | add
  | subtract
  | multiply
  | divide
  | defineGlobal (name : String)
  | setGlobal (name : String)
  | getGlobal (name : String)
  | getLocal (index : Nat)
  | setLocal (index : Nat)
  | call (argCount : Nat)
  | pop
  | equal
  | notEqual
  | greater
  | lesser
  | greaterEq
  | lesserEq
  | not
  | jumpIfFalse (offset : Nat)
  | jump (offset : Nat)
  | indexInto
  | arrayLiteral (count : Nat)
  | ret

end

def Func.arity : Func → Nat
  | .mk a _ _ _ => a

def Func.chunk : Func → List Instruction
  | .mk _ c _ _ => c

def Func.name : Func → String
  | .mk _ _ n _ => n

def Func.kind : Func → FunctionType
  | .mk _ _ _ k => k

/-- bytecode.rs CallFrame: executing function, instruction pointer, and
the stack offset where the frame window begins. -/
structure CallFrame where
  function : Func
  ip : Nat
  slot_offset : Nat

/-- vm.rs VirtualMachine state: operand stack, globals, call frames. -/
structure VirtualMachine where
  stack : List Constant
  globals : List (String × Constant)
  frames : List CallFrame

/-- bytecode.rs Constant::get_pretty_type. String formatting of numbers
in function names does not occur (only names and arities are shown). -/
def Constant.get_pretty_type : Constant → String
  | .number _ => "number"
  | .bool _ => "boolean"
  | .string _ => "string"
  | .function f => "fn <\x27" ++ f.name ++ "\x27 " ++ toString f.arity ++ ">"
  | .none => "none"
  | .builtInMethod f =>
      "fn <built-in \x27" ++ f.name ++ "\x27 " ++ toString f.arity ++ ">"
  | .array arr => "array <" ++ toString arr.length ++ ">"

/-- bytecode.rs Constant::is_falsey: false only for Bool(false) and
None. -/
def Constant.is_falsey : Constant → Bool
  | .bool value => !value
  | .none => true
  | _ => false

/-- Textual form of a number (source: f64 to_string); the exact
rendering is irrelevant to the verified properties. -/
def numberToString (n : ℚ) : String := toString n

/-- bytecode.rs Constant::get_string (used by Add when concatenating). -/
def Constant.get_string : Constant → String
  | .bool b => if b then "true" else "false"
  | .number n => numberToString n
  | .string s => s
  | .none => "none"
  | .function f => "fn <\x27" ++ f.name ++ "\x27 " ++ toString f.arity ++ ">"
  | .builtInMethod f =>
      "fn <built-in \x27" ++ f.name ++ "\x27 " ++ toString f.arity ++ ">"
  | .array arr => "array <" ++ toString arr.length ++ ">"

/-- bytecode.rs PartialEq for Constant: same-variant comparison for
Number, Bool, String, None; every other case (Function, BuiltInMethod,
Array, and all cross-variant pairs) falls into the catch-all arm and is
false. -/
def Constant.eq : Constant → Constant → Bool
  | .number lhs, .number rhs => lhs == rhs
  | .number _, _ => false
  | .bool lhs, .bool rhs => lhs == rhs
  | .bool _, _ => false
  | .string lhs, .string rhs => lhs == rhs
  | .string _, _ => false
  | .none, .none => true
  | .none, _ => false
  | _, _ => false

/-- bytecode.rs PartialOrd::ge for Constant. A non Number-Number pair
hits panic; modelled as Option.none. -/
def Constant.ge : Constant → Constant → Option Bool
  | .number lhs, .number rhs => some (decide (lhs ≥ rhs))
  | _, _ => Option.none

/-- bytecode.rs PartialOrd::le for Constant. -/
def Constant.le : Constant → Constant → Option Bool
  | .number lhs, .number rhs => some (decide (lhs ≤ rhs))
  | _, _ => Option.none

/-- bytecode.rs PartialOrd::gt for Constant. -/
def Constant.gt : Constant → Constant → Option Bool
  | .number lhs, .number rhs => some (decide (lhs > rhs))
  | _, _ => Option.none

/-- bytecode.rs PartialOrd::lt for Constant. The source body tests
`lhs >= rhs` (not `lhs < rhs`), which is embedded as written. -/
def Constant.lt : Constant → Constant → Option Bool
  | .number lhs, .number rhs => some (decide (lhs ≥ rhs))
  | _, _ => Option.none

/-- Rust `n as usize` on an f64: saturating cast, truncating toward
zero; negative values give 0, values above usize::MAX give usize::MAX
(64-bit). -/
def f64_as_usize (n : ℚ) : Nat :=
  if n ≤ 0 then 0 else min (n.num / (n.den : Int)).toNat (2 ^ 64 - 1)

/-- VecDeque::get with the source front index i (bottom of stack is
index 0), on the top-first list representation. -/
def stackGet (stack : List Constant) (i : Nat) : Option Constant :=
  if i < stack.length then stack.get? (stack.length - 1 - i) else Option.none

/-- Writing through VecDeque::get_mut at front index i; out of range
leaves the stack unchanged (the source also drops its error string in
that case, see the SetLocal handler). -/
def stackSet (stack : List Constant) (i : Nat) (v : Constant) :
    List Constant :=
  if i < stack.length then stack.set (stack.length - 1 - i) v else stack

/-- VecDeque::truncate to length k (no-op when already shorter), on the
top-first representation: keep the bottom k elements. -/
def stackTruncate (stack : List Constant) (k : Nat) : List Constant :=
  stack.drop (stack.length - k)

/-- VirtualMachine::peek(distance): element distance slots below the
top. -/
def peekStack (stack : List Constant) (distance : Nat) : Option Constant :=
  stack.get? distance

/-- HashMap::get on the association-list model of the globals. -/
def lookupGlobal : List (String × Constant) → String → Option Constant
  | [], _ => Option.none
  | (k, v) :: rest, name =>
      if k = name then some v else lookupGlobal rest name

/-- HashMap::insert on the association-list model: later inserts shadow
earlier ones for lookup. -/
def insertGlobal (globals : List (String × Constant)) (name : String)
    (v : Constant) : List (String × Constant) :=
  (name, v) :: globals

/-- The error values interpret() can return (vm.rs builds them as
formatted strings via VirtualMachine::error; the line/instruction
decoration is omitted). One constructor per distinct message text, so
two handlers share a constructor exactly when the source shares the
message string between them. -/
inductive VMError where
  /-- "cannot add two non-numbers, ...-hand side is not a number but a
  ..." - one shared text used by the Add, Subtract, Divide and Multiply
  handlers, parameterised by the side and the pretty type. -/
  | nonNumberOperand (rightSide : Bool) (ty : String)
  /-- "cannot divide a number by zero" - used by BOTH the Divide and the
  Multiply handlers. -/
  | divisionByZero
  /-- "no global with name ... exists" -/
  | undefinedGlobal (name : String)
  /-- "no such local variable in the scope" (GetLocal) -/
  | noSuchLocal
  /-- "no value for local variable to set" (SetLocal on empty stack) -/
  | noValueForLocal
  /-- "Cant call a non-function" -/
  | notCallable
  /-- "Invalid index" (IndexInto with a non-number index) -/
  | invalidIndex
  /-- "Can only index into a string or array, got: ..." -/
  | notIndexable (ty : String)
deriving DecidableEq, Repr

/-- The aborts (Rust panic / unwrap / expect) the interpreter can hit,
as distinguished from returned error strings. -/
inductive VMPanic where
  /-- unwrap() of stack.pop_back() on an empty stack -/
  | popEmptyStack
  /-- expect in peek_back on an empty stack -/
  | peekBackEmpty
  /-- expect "Failed to peek" in peek -/
  | peekFailed
  /-- frames.last().unwrap() with no frames -/
  | noFrame
  /-- chunk[ip] indexing past the end of the code vector -/
  | badInstructionPtr
  /-- the panic inside the PartialOrd impl for Constant on a pair that
  is not Number-Number -/
  | compareNonNumbers
deriving DecidableEq, Repr

/-- vm.rs CallResult; since the embedding threads state explicitly, the
ok variants carry the updated machine. -/
inductive CallResult where
  | ok (vm : VirtualMachine)
  | okNative (vm : VirtualMachine)
  | err

/-- Result of one iteration of the interpret() loop. -/
inductive StepResult where
  /-- the loop continues with this state -/
  | ok (vm : VirtualMachine)
  /-- interpret() returned None: successful termination -/
  | done (vm : VirtualMachine)
  /-- interpret() returned Some(error) -/
  | err (e : VMError)
  /-- the process panicked -/
  | panic (p : VMPanic)

/-- Advance a frame instruction pointer by k. -/
def bumpIp (frame : CallFrame) (k : Nat) : CallFrame :=
  { frame with ip := frame.ip + k }

/-- The fetch `frame.function.chunk[frame.ip]` of the interpret loop;
the out-of-bounds panic of the Index impl is Option.none here. -/
def currentInstruction (frame : CallFrame) : Option Instruction :=
  frame.function.chunk.get? frame.ip

/-- vm.rs VirtualMachine::call_value. `natives` resolves the funcId of
a BuiltInMethod to the host closure. Note the two arity checks in the
source build an error string via self.error and then DISCARD it (the
string is neither returned nor stored), so both branches fall through
into the success path; the embedding therefore has no arity test. In
the Function branch, slot_offset is the usize difference
stack.len() - arg_count - 1 (callers guarantee the stack holds the
callee and the arguments, so it cannot underflow). -/
def call_value (natives : Nat → List Constant → Constant)
    (vm : VirtualMachine) (c : Constant) (argCount : Nat) : CallResult :=
  match c with
  | .function func =>
      let frame : CallFrame :=
        { function := func, ip := 0,
          slot_offset := vm.stack.length - argCount - 1 }
      .ok { vm with frames := frame :: vm.frames }
  | .builtInMethod func =>
      let removed := (vm.stack.take argCount).reverse
      let result := natives func.funcId removed
      let stack' := stackTruncate vm.stack (vm.stack.length - argCount - 1)
      .okNative { vm with stack := result :: stack' }
  | _ => .err

/-- One iteration of the vm.rs VirtualMachine::interpret loop: fetch
the instruction at the innermost frame ip, dispatch, and advance the
ip by one unless the arm `continue`s (Call) or returns. The handlers
appear in the source order. -/
def interpretStep (natives : Nat → List Constant → Constant)
    (vm : VirtualMachine) : StepResult :=
  match vm.frames with
  | [] => .panic .noFrame
  | frame :: restFrames =>
    match currentInstruction frame with
    | Option.none => .panic .badInstructionPtr
    | some ins =>
      match ins with
      | .const c =>
          .ok { vm with stack := c :: vm.stack,
                        frames := bumpIp frame 1 :: restFrames }
      | .add =>
          match vm.stack with
          | b :: a :: rest =>
            if (match a with | .string _ => true | _ => false)
                || (match b with | .string _ => true | _ => false) then
              .ok { vm with
                    stack := .string (a.get_string ++ b.get_string) :: rest,
                    frames := bumpIp frame 1 :: restFrames }
            else
              match b with
              | .number rhs =>
                match a with
                | .number lhs =>
                    .ok { vm with stack := .number (lhs + rhs) :: rest,
                                  frames := bumpIp frame 1 :: restFrames }
                | _ => .err (.nonNumberOperand false a.get_pretty_type)
              | _ => .err (.nonNumberOperand true b.get_pretty_type)
          | _ => .panic .popEmptyStack
      | .subtract =>
          match vm.stack with
          | b :: a :: rest =>
            match b with
            | .number rhs =>
              match a with
              | .number lhs =>
                  .ok { vm with stack := .number (lhs - rhs) :: rest,
                                frames := bumpIp frame 1 :: restFrames }
              | _ => .err (.nonNumberOperand false a.get_pretty_type)
            | _ => .err (.nonNumberOperand true b.get_pretty_type)
          | _ => .panic .popEmptyStack
      | .divide =>
          match vm.stack with
          | b :: a :: rest =>
            match b with
            | .number rhs =>
              if rhs = 0 then .err .divisionByZero
              else
                match a with
                | .number lhs =>
                    .ok { vm with stack := .number (lhs / rhs) :: rest,
                                  frames := bumpIp frame 1 :: restFrames }
                | _ => .err (.nonNumberOperand false a.get_pretty_type)
            | _ => .err (.nonNumberOperand true b.get_pretty_type)
          | _ => .panic .popEmptyStack
      | .multiply =>
          match vm.stack with
          | b :: a :: rest =>
            match b with
            | .number rhs =>
              -- the source repeats the zero test and the
              -- division-by-zero message of the Divide handler here
              if rhs = 0 then .err .divisionByZero
              else
                match a with
                | .number lhs =>
                    .ok { vm with stack := .number (lhs * rhs) :: rest,
                                  frames := bumpIp frame 1 :: restFrames }
                | _ => .err (.nonNumberOperand false a.get_pretty_type)
            | _ => .err (.nonNumberOperand true b.get_pretty_type)
          | _ => .panic .popEmptyStack
      | .getGlobal name =>
          match lookupGlobal vm.globals name with
          | some global =>
              .ok { vm with stack := global :: vm.stack,
                            frames := bumpIp frame 1 :: restFrames }
          | Option.none => .err (.undefinedGlobal name)
      | .defineGlobal name =>
          match vm.stack with
          | value :: rest =>
              .ok { vm with stack := rest,
                            globals := insertGlobal vm.globals name value,
                            frames := bumpIp frame 1 :: restFrames }
          | [] => .panic .peekBackEmpty
      | .setGlobal name =>
          match vm.stack with
          | value :: _ =>
              -- the value is NOT popped: assignment yields its value
              .ok { vm with globals := insertGlobal vm.globals name value,
                            frames := bumpIp frame 1 :: restFrames }
          | [] => .panic .peekBackEmpty
      | .getLocal index =>
          match stackGet vm.stack (frame.slot_offset + index) with
          | some d =>
              .ok { vm with stack := d :: vm.stack,
                            frames := bumpIp frame 1 :: restFrames }
          | Option.none => .err .noSuchLocal
      | .setLocal index =>
          match vm.stack with
          | value :: rest =>
              -- pop_back the value, then write it through get_mut;
              -- an out-of-range slot drops the error string and
              -- leaves the stack as popped
              .ok { vm with
                    stack := stackSet rest (frame.slot_offset + index) value,
                    frames := bumpIp frame 1 :: restFrames }
          | [] => .err .noValueForLocal
      | .pop =>
          -- pop_back returns an Option that is discarded: popping an
          -- empty stack is a no-op, not a panic
          .ok { vm with stack := vm.stack.tail,
                        frames := bumpIp frame 1 :: restFrames }
      | .call argCount =>
          match peekStack vm.stack argCount with
          | Option.none => .panic .peekFailed
          | some function =>
            match call_value natives vm function argCount with
            | .err => .err .notCallable
            | .okNative vm' =>
                -- natives have no Return: the current frame ip is
                -- advanced before `continue`
                match vm'.frames with
                | f :: rest => .ok { vm' with frames := bumpIp f 1 :: rest }
                | [] => .panic .noFrame
            | .ok vm' =>
                -- `continue` without advancing the caller ip
                .ok vm'
      | .jumpIfFalse offset =>
          match peekStack vm.stack 0 with
          | Option.none => .panic .peekFailed
          | some v =>
              let frame' := if v.is_falsey then bumpIp frame offset else frame
              .ok { vm with frames := bumpIp frame' 1 :: restFrames }
      | .jump offset =>
          .ok { vm with frames := bumpIp frame (offset + 1) :: restFrames }
      | .equal =>
          match vm.stack with
          | b :: a :: rest =>
              .ok { vm with stack := .bool (a.eq b) :: rest,
                            frames := bumpIp frame 1 :: restFrames }
          | _ => .panic .popEmptyStack
      | .notEqual =>
          match vm.stack with
          | b :: a :: rest =>
              .ok { vm with stack := .bool (!a.eq b) :: rest,
                            frames := bumpIp frame 1 :: restFrames }
          | _ => .panic .popEmptyStack
      | .greater =>
          match vm.stack with
          | b :: a :: rest =>
            match a.gt b with
            | some r =>
                .ok { vm with stack := .bool r :: rest,
                              frames := bumpIp frame 1 :: restFrames }
            | Option.none => .panic .compareNonNumbers
          | _ => .panic .popEmptyStack
      | .greaterEq =>
          match vm.stack with
          | b :: a :: rest =>
            match a.ge b with
            | some r =>
                .ok { vm with stack := .bool r :: rest,
                              frames := bumpIp frame 1 :: restFrames }
            | Option.none => .panic .compareNonNumbers
          | _ => .panic .popEmptyStack
      | .lesser =>
          match vm.stack with
          | b :: a :: rest =>
            match a.lt b with
            | some r =>
                .ok { vm with stack := .bool r :: rest,
                              frames := bumpIp frame 1 :: restFrames }
            | Option.none => .panic .compareNonNumbers
          | _ => .panic .popEmptyStack
      | .lesserEq =>
          match vm.stack with
          | b :: a :: rest =>
            match a.le b with
            | some r =>
                .ok { vm with stack := .bool r :: rest,
                              frames := bumpIp frame 1 :: restFrames }
            | Option.none => .panic .compareNonNumbers
          | _ => .panic .popEmptyStack
      | .not =>
          match vm.stack with
          | value :: rest =>
              .ok { vm with stack := .bool value.is_falsey :: rest,
                            frames := bumpIp frame 1 :: restFrames }
          | [] => .panic .popEmptyStack
      | .indexInto =>
          match vm.stack with
          | index :: subject :: rest =>
            match index with
            | .number n =>
              let i := f64_as_usize n
              match subject with
              | .string s =>
                  .ok { vm with
                        stack := (match s.data.get? i with
                          | some c => .string (String.singleton c)
                          | Option.none => Constant.none) :: rest,
                        frames := bumpIp frame 1 :: restFrames }
              | .array arr =>
                  .ok { vm with
                        stack := ((arr.get? i).getD Constant.none) :: rest,
                        frames := bumpIp frame 1 :: restFrames }
              | _ => .err (.notIndexable subject.get_pretty_type)
            | _ => .err .invalidIndex
          | _ => .panic .popEmptyStack
      | .arrayLiteral count =>
          -- count unwrapped pops, then the popped values are reversed
          if count ≤ vm.stack.length then
            .ok { vm with
                  stack := .array ((vm.stack.take count).reverse)
                             :: vm.stack.drop count,
                  frames := bumpIp frame 1 :: restFrames }
          else .panic .popEmptyStack
      | .ret =>
          match vm.stack with
          | retVal :: rest =>
            match restFrames with
            | [] => .done { vm with stack := rest, frames := [] }
            | caller :: others =>
                .ok { vm with
                      stack := retVal :: stackTruncate rest frame.slot_offset,
                      frames := bumpIp caller 1 :: others }
          | [] => .panic .popEmptyStack

/-- Outcome of a whole interpret() run. -/
inductive RunResult where
  /-- interpret() returned None -/
  | success
  /-- interpret() returned Some(error) -/
  | failure (e : VMError)
  /-- the process panicked -/
  | panicked (p : VMPanic)
  /-- fuel exhausted before the run ended -/
  | outOfFuel (vm : VirtualMachine)

/-- vm.rs VirtualMachine::interpret, run with explicit fuel (the claims
only need terminating executions). -/
def interpret (natives : Nat → List Constant → Constant) :
    Nat → VirtualMachine → RunResult
  | 0, vm => .outOfFuel vm
  | fuel + 1, vm =>
    match interpretStep natives vm with
    | .ok vm' => interpret natives fuel vm'
    | .done _ => .success
    | .err e => .failure e
    | .panic p => .panicked p

/-- ast.rs BinaryOp. -/
inductive BinaryOp where
  | add
  | sub
  | mul
  | div
  | greater
  | greaterEq
  | less
  | lessEq
  | equal
  | notEqual
deriving DecidableEq, Repr

/-- The AST subset whose compilation the claims exercise (ast.rs Node
restricted to the constructors whose compiler.rs lowering touches only
the chunk, not the VariableManager). The source Number node carries the
raw lexeme parsed with an f64 parse inside the compiler; the parsed
value is carried directly here. Source line/column payloads, used only
for the omitted parallel line array, are dropped. The If node fields
are condition, then_block, optional else_block; the For node fields are
the loop variable name, the iterated target and the body. -/
inductive Node where
  | number (n : ℚ)
  | stringLit (s : String)
  | boolLit (b : Bool)
  | noneLit
  | arrayLit (values : List Node)
  | binary (lhs : Node) (rhs : Node) (op : BinaryOp)
  | exprStmt (expr : Node)
  | grouping (expr : Node)
  | ifStmt (condition : Node) (then_block : Node)
      (else_block : Option Node)
  | forStmt (name : String) (target : Node) (body : Node)

/-- The one abort the embedded compiler can hit: the
`unimplemented!()` panic (message "not implemented") in the For arm of
compiler.rs compile_node. -/
inductive CompilePanic where
  | unimplemented
deriving DecidableEq, Repr

/-- The instruction a compiler.rs Binary arm selects for each operator
(one-to-one). -/
def binaryOpInstruction : BinaryOp → Instruction
  | .add => .add
  | .sub => .subtract
  | .mul => .multiply
  | .div => .divide
  | .equal => .equal
  | .notEqual => .notEqual
  | .greater => .greater
  | .greaterEq => .greaterEq
  | .less => .lesser
  | .lessEq => .lesserEq

/-- Modelled from the spec: `Chunk::emit_jump` is called by
compiler.rs (If arm) but its definition is missing from the sources.
Per the spec, the compiler emits a placeholder jump instruction and
remembers its index so the offset can be patched later ("reserve
instruction slot, remember its index, patch later"); emit_jump
therefore appends the placeholder and returns its position, the value
patch_jump later receives. -/
def emit_jump (chunk : List Instruction) (ins : Instruction) :
    List Instruction × Nat :=
  (chunk ++ [ins], chunk.length)

/-- compiler.rs Compiler::patch_jump: the offset written is
code.len() - offset cast `as u16`, and the instruction at the patched
slot is ALWAYS rewritten to JumpIfFalse, as the source does - also when
the placeholder was an unconditional Jump. -/
def patch_jump (chunk : List Instruction) (offset : Nat) :
    List Instruction :=
  chunk.set offset (.jumpIfFalse ((chunk.length - offset) % 2 ^ 16))

mutual

/-- compiler.rs Compiler::compile_node for the embedded Node subset,
threading the chunk the source mutates. The For arm executes
`unimplemented!()` before any of its (dead) remaining statements. The
If arm follows the source line by line; the two source patterns of the
optional else block are split into two match arms. -/
def compile_node : Node → List Instruction →
    Except CompilePanic (List Instruction)
  | .number n, chunk => pure (chunk ++ [.const (.number n)])
  | .stringLit s, chunk => pure (chunk ++ [.const (.string s)])
  | .boolLit b, chunk => pure (chunk ++ [.const (.bool b)])
  | .noneLit, chunk => pure (chunk ++ [.const .none])
  | .arrayLit values, chunk => do
      let chunk ← compileList values chunk
      pure (chunk ++ [.arrayLiteral values.length])
  | .binary lhs rhs op, chunk => do
      let chunk ← compile_node lhs chunk
      let chunk ← compile_node rhs chunk
      pure (chunk ++ [binaryOpInstruction op])
  | .exprStmt expr, chunk => do
      let chunk ← compile_node expr chunk
      pure (chunk ++ [.pop])
  | .grouping expr, chunk => compile_node expr chunk
  | .ifStmt condition then_block Option.none, chunk => do
      let chunk ← compile_node condition chunk
      let (chunk, thenJump) := emit_jump chunk (.jumpIfFalse 0)
      let chunk := chunk ++ [.pop]
      let chunk ← compile_node then_block chunk
      let (chunk, elseJump) := emit_jump chunk (.jump 0)
      let chunk := patch_jump chunk thenJump
      let chunk := chunk ++ [.pop]
      pure (patch_jump chunk elseJump)
  | .ifStmt condition then_block (some else_block), chunk => do
      let chunk ← compile_node condition chunk
      let (chunk, thenJump) := emit_jump chunk (.jumpIfFalse 0)
      let chunk := chunk ++ [.pop]
      let chunk ← compile_node then_block chunk
      let (chunk, elseJump) := emit_jump chunk (.jump 0)
      let chunk := patch_jump chunk thenJump
      let chunk := chunk ++ [.pop]
      let chunk ← compile_node else_block chunk
      pure (patch_jump chunk elseJump)
  | .forStmt _ _ _, _ => throw .unimplemented

/-- Compilation of an ordered node list (the ArrayLiteral element
loop). -/
def compileList : List Node → List Instruction →
    Except CompilePanic (List Instruction)
  | [], chunk => pure chunk
  | v :: rest, chunk => do
      let chunk ← compile_node v chunk
      compileList rest chunk

end

/-! Concrete fixtures used to instantiate the theorems. -/

/-- A host table whose every native returns None. -/
def natives0 : Nat → List Constant → Constant := fun _ _ => Constant.none

/-- A top-level script frame at ip 0 over the given code. -/
def scriptFrame (code : List Instruction) : CallFrame :=
  { function := .mk 0 code "script" .script, ip := 0, slot_offset := 0 }

/-- A script function of declared arity 2 that just returns None. -/
def funcArity2 : Func := .mk 2 [.const .none, .ret] "f" .function

/-- A top-level chunk that calls funcArity2 with a single argument. -/
def chunkCallsWithOneArg : List Instruction :=
  [.const (.function funcArity2), .const (.number 5), .call 1, .pop,
   .const .none, .ret]

/-- Machine about to run chunkCallsWithOneArg. -/
def vmCallMismatch : VirtualMachine :=
  { stack := [], globals := [], frames := [scriptFrame chunkCallsWithOneArg] }

/-- A native method of declared arity 2. -/
def builtInArity2 : BuiltInMethod := { name := "native", funcId := 0, arity := 2 }

/-- Machine whose stack holds builtInArity2 and one argument, about to
run Call(1) and then return. -/
def vmNativeMismatch : VirtualMachine :=
  { stack := [.number 5, .builtInMethod builtInArity2], globals := [],
    frames := [scriptFrame [.call 1, .pop, .const .none, .ret]] }

/-- Machine about to run SetLocal(0) with assigned value 7 on top of a
stack holding locals 9 (bottom, slot 0) and 1 (slot 1). -/
def vmSetLocal : VirtualMachine :=
  { stack := [.number 7, .number 1, .number 9], globals := [],
    frames := [scriptFrame [.setLocal 0]] }

/-- The machine vmSetLocal steps to. -/
def vmSetLocalAfter : VirtualMachine :=
  { stack := [.number 1, .number 7], globals := [],
    frames := [{ function := .mk 0 [.setLocal 0] "script" .script,
                 ip := 1, slot_offset := 0 }] }

/-- An If node with condition true, then-branch expression 1 and
else-branch expression 2. -/
def ifNodeWithElse : Node :=
  .ifStmt (.boolLit true) (.exprStmt (.number 1))
    (some (.exprStmt (.number 2)))

/-- The instruction list compile_node emits for ifNodeWithElse. -/
def ifNodeCompiled : List Instruction :=
  [.const (.bool true), .jumpIfFalse 5, .pop, .const (.number 1), .pop,
   .jumpIfFalse 4, .pop, .const (.number 2), .pop]

/-- An arbitrary concrete script function value (for the Equal claim). -/
def someFunc : Func := .mk 0 [.ret] "g" .function

/-! Theorems settling the claims. -/

/-- C1: the claim says a Call whose argument count differs from the
callee declared arity fails the interpret() run with an arity error
(for script Functions, and for BuiltInMethods of nonzero declared
arity). The code does build the arity-mismatch message in call_value
but discards it, so the call proceeds: a script function of arity 2
called with 1 argument runs to successful completion, and so does a
native of declared arity 2 called with 1 argument. -/
theorem call_arity_mismatch_not_fatal :
    interpret natives0 20 vmCallMismatch = .success ∧
    interpret natives0 20 vmNativeMismatch = .success :=
  ⟨rfl, rfl⟩

/-- C2 counterexample: executing SetLocal(0) with assigned value 7 on
the stack (top) 7, 1, 9 (bottom) pops the 7 and stores it in slot 0:
the stack shrinks from 3 to 2 entries and its new top is 1, not the
assigned value, refuting the claim that SetLocal does not pop. -/
theorem set_local_pops_counterexample :
    interpretStep natives0 vmSetLocal = .ok vmSetLocalAfter ∧
    vmSetLocalAfter.stack.length ≠ vmSetLocal.stack.length ∧
    vmSetLocalAfter.stack.head? ≠ some (.number 7) := by
  refine ⟨rfl, by decide, ?_⟩
  norm_num [vmSetLocalAfter]

/-- C2 (amended): SetGlobal leaves the assigned value on top of the
stack (no pop, stack unchanged), while SetLocal pops the assigned
value and writes it into the addressed slot (an out-of-range slot
drops the write together with its error string), so the stack height
decreases by exactly one. -/
theorem set_global_no_pop_set_local_pops
    (natives : Nat → List Constant → Constant)
    (globals : List (String × Constant)) (frame : CallFrame)
    (rest : List CallFrame) (v : Constant) (st : List Constant) :
    (∀ name, currentInstruction frame = some (.setGlobal name) →
      interpretStep natives ⟨v :: st, globals, frame :: rest⟩ =
        .ok ⟨v :: st, insertGlobal globals name v, bumpIp frame 1 :: rest⟩) ∧
    (∀ i, currentInstruction frame = some (.setLocal i) →
      interpretStep natives ⟨v :: st, globals, frame :: rest⟩ =
        .ok ⟨stackSet st (frame.slot_offset + i) v, globals,
             bumpIp frame 1 :: rest⟩ ∧
      (stackSet st (frame.slot_offset + i) v).length = st.length) := by
  constructor
  · intro name hin
    simp [interpretStep, hin]
  · intro i hin
    refine ⟨by simp [interpretStep, hin], ?_⟩
    simp only [stackSet]
    split <;> simp

/-- C2 witness: the amended statement at a concrete machine - a
SetGlobal keeping 3 on top, and the SetLocal step of vmSetLocal. -/
theorem set_global_no_pop_set_local_pops_witness :
    interpretStep natives0
        ⟨[.number 3], [], [scriptFrame [.setGlobal "x"]]⟩ =
      .ok ⟨[.number 3], insertGlobal [] "x" (.number 3),
           [bumpIp (scriptFrame [.setGlobal "x"]) 1]⟩ ∧
    interpretStep natives0
        ⟨[.number 7, .number 1, .number 9], [],
         [scriptFrame [.setLocal 0]]⟩ =
      .ok ⟨stackSet [.number 1, .number 9]
             ((scriptFrame [.setLocal 0]).slot_offset + 0) (.number 7), [],
           [bumpIp (scriptFrame [.setLocal 0]) 1]⟩ := by
  constructor
  · exact (set_global_no_pop_set_local_pops natives0 []
      (scriptFrame [.setGlobal "x"]) [] (.number 3) []).1 "x" rfl
  · exact ((set_global_no_pop_set_local_pops natives0 []
      (scriptFrame [.setLocal 0]) [] (.number 7)
      [.number 1, .number 9]).2 0 rfl).1

/-- C3: the claim says Lesser pushes true exactly when left < right,
and that relational instructions on a non Number-Number pair fail with
a fatal InvalidOperand runtime error. In the code, the PartialOrd lt
method tests left >= right, so Lesser on 1 and 2 pushes false (the
claim demands true) and on 2 and 1 pushes true; and a non-number pair
hits the panic inside the PartialOrd impl, aborting the process rather
than returning a runtime error value. -/
theorem lesser_computes_ge_and_non_numbers_panic :
    interpretStep natives0
        ⟨[.number 2, .number 1], [], [scriptFrame [.lesser]]⟩ =
      .ok ⟨[.bool false], [], [bumpIp (scriptFrame [.lesser]) 1]⟩ ∧
    interpretStep natives0
        ⟨[.number 1, .number 2], [], [scriptFrame [.lesser]]⟩ =
      .ok ⟨[.bool true], [], [bumpIp (scriptFrame [.lesser]) 1]⟩ ∧
    interpretStep natives0
        ⟨[.string "x", .number 1], [], [scriptFrame [.lesser]]⟩ =
      .panic .compareNonNumbers :=
  ⟨rfl, rfl, rfl⟩

/-- C4: compiling an If with an else branch emits the claimed sequence
EXCEPT that the placeholder unconditional Jump emitted after the
then-block does not stay a Jump: patch_jump rewrites whatever it
patches to JumpIfFalse, so position 5 of the compiled chunk below
holds JumpIfFalse(4) where the claim requires Jump(4). -/
theorem if_else_jump_patched_to_conditional :
    compile_node ifNodeWithElse [] = Except.ok ifNodeCompiled ∧
    ifNodeCompiled.get? 5 = some (.jumpIfFalse 4) :=
  ⟨rfl, rfl⟩

/-- C5: the claim says a For node must produce a clear "not yet
supported" compile error; the code instead runs the unimplemented
macro, which panics the process abruptly (message "not implemented")
for every For node and every chunk state. -/
theorem for_node_hits_unimplemented_panic (name : String)
    (target body : Node) (chunk : List Instruction) :
    compile_node (.forStmt name target body) chunk =
      Except.error .unimplemented :=
  rfl

/-- C6: Divide fails with the division-by-zero error exactly when the
right (first-popped) operand is Number(0), whatever the left operand
is; on Number operands with a nonzero right operand it pushes the
quotient and continues. -/
theorem divide_division_by_zero_iff
    (natives : Nat → List Constant → Constant)
    (globals : List (String × Constant)) (frame : CallFrame)
    (rest : List CallFrame) (st : List Constant)
    (hin : currentInstruction frame = some Instruction.divide) :
    (∀ b a : Constant,
      interpretStep natives ⟨b :: a :: st, globals, frame :: rest⟩ =
          .err .divisionByZero ↔ b = .number 0) ∧
    (∀ l r : ℚ, r ≠ 0 →
      interpretStep natives
          ⟨.number r :: .number l :: st, globals, frame :: rest⟩ =
        .ok ⟨.number (l / r) :: st, globals, bumpIp frame 1 :: rest⟩) := by
  constructor
  · intro b a
    rcases b with n | bb | s | f | m | arr | _ <;>
      simp [interpretStep, hin]
    by_cases hn : n = 0 <;>
      rcases a with n' | bb' | s' | f' | m' | arr' | _ <;> simp [hn]
  · intro l r hr
    simp [interpretStep, hin, hr]

/-- C6 witness: 0 as right operand fails with the division-by-zero
error; 6 divided by 3 pushes the quotient. -/
theorem divide_division_by_zero_iff_witness :
    interpretStep natives0
        ⟨[.number 0, .number 7], [], [scriptFrame [.divide]]⟩ =
      .err .divisionByZero ∧
    interpretStep natives0
        ⟨[.number 3, .number 6], [], [scriptFrame [.divide]]⟩ =
      .ok ⟨[.number (6 / 3)], [], [bumpIp (scriptFrame [.divide]) 1]⟩ := by
  constructor
  · exact ((divide_division_by_zero_iff natives0 [] (scriptFrame [.divide])
      [] [] rfl).1 (.number 0) (.number 7)).mpr rfl
  · exact (divide_division_by_zero_iff natives0 [] (scriptFrame [.divide])
      [] [] rfl).2 6 3 (by norm_num)

/-- C7: Multiply rejects a right operand of Number(0) with literally
the same step outcome as Divide on the same operands (the shared
division-by-zero error constructor models the shared message text);
with a nonzero Number right operand and a Number left operand it
pushes the product. -/
theorem multiply_rejects_zero_rhs
    (natives : Nat → List Constant → Constant)
    (globals : List (String × Constant)) (frame : CallFrame)
    (rest : List CallFrame) (st : List Constant)
    (hin : currentInstruction frame = some Instruction.multiply) :
    (∀ a : Constant,
      interpretStep natives
          ⟨.number 0 :: a :: st, globals, frame :: rest⟩ =
        .err .divisionByZero) ∧
    (∀ (a : Constant) (frame2 : CallFrame),
      currentInstruction frame2 = some Instruction.divide →
      interpretStep natives
          ⟨.number 0 :: a :: st, globals, frame :: rest⟩ =
        interpretStep natives
          ⟨.number 0 :: a :: st, globals, frame2 :: rest⟩) ∧
    (∀ l r : ℚ, r ≠ 0 →
      interpretStep natives
          ⟨.number r :: .number l :: st, globals, frame :: rest⟩ =
        .ok ⟨.number (l * r) :: st, globals, bumpIp frame 1 :: rest⟩) := by
  refine ⟨?_, ?_, ?_⟩
  · intro a
    simp [interpretStep, hin]
  · intro a frame2 hin2
    simp [interpretStep, hin, hin2]
  · intro l r hr
    simp [interpretStep, hin, hr]

/-- C7 witness: multiplying 6 by 0 fails exactly like dividing 6 by 0,
and 6 times 3 pushes 18. -/
theorem multiply_rejects_zero_rhs_witness :
    interpretStep natives0
        ⟨[.number 0, .number 6], [], [scriptFrame [.multiply]]⟩ =
      .err .divisionByZero ∧
    interpretStep natives0
        ⟨[.number 0, .number 6], [], [scriptFrame [.multiply]]⟩ =
      interpretStep natives0
        ⟨[.number 0, .number 6], [], [scriptFrame [.divide]]⟩ ∧
    interpretStep natives0
        ⟨[.number 3, .number 6], [], [scriptFrame [.multiply]]⟩ =
      .ok ⟨[.number (6 * 3)], [], [bumpIp (scriptFrame [.multiply]) 1]⟩ := by
  refine ⟨?_, ?_, ?_⟩
  · exact (multiply_rejects_zero_rhs natives0 [] (scriptFrame [.multiply])
      [] [] rfl).1 (.number 6)
  · exact (multiply_rejects_zero_rhs natives0 [] (scriptFrame [.multiply])
      [] [] rfl).2.1 (.number 6) (scriptFrame [.divide]) rfl
  · exact (multiply_rejects_zero_rhs natives0 [] (scriptFrame [.multiply])
      [] [] rfl).2.2 6 3 (by norm_num)

/-- C8: JumpIfFalse leaves the stack untouched (it peeks) and adds its
offset to the instruction pointer (on top of the universal advance by
one) exactly when the peeked value is falsey, and falsey holds exactly
for Bool(false) and None - Number(0) and the empty String fall
through. -/
theorem jump_if_false_peeks_truthiness
    (natives : Nat → List Constant → Constant)
    (globals : List (String × Constant)) (frame : CallFrame)
    (rest : List CallFrame) (off : Nat) (v : Constant)
    (st : List Constant)
    (hin : currentInstruction frame = some (.jumpIfFalse off)) :
    interpretStep natives ⟨v :: st, globals, frame :: rest⟩ =
      .ok ⟨v :: st, globals,
        { frame with
          ip := frame.ip + (if v.is_falsey then off else 0) + 1 } :: rest⟩ ∧
    (v.is_falsey = true ↔ (v = .bool false ∨ v = .none)) := by
  constructor
  · rcases v with n | b | s | f | m | arr | _ <;>
      simp [interpretStep, hin, peekStack, Constant.is_falsey, bumpIp]
    cases b <;> simp [bumpIp]
  · rcases v with n | b | s | f | m | arr | _ <;> simp [Constant.is_falsey]

/-- C8 witness: a None condition with offset 3 takes the jump, leaving
the None on the stack. -/
theorem jump_if_false_peeks_truthiness_witness :
    interpretStep natives0
        ⟨[Constant.none], [], [scriptFrame [.jumpIfFalse 3]]⟩ =
      .ok ⟨[Constant.none], [],
        [{ scriptFrame [.jumpIfFalse 3] with
           ip := (scriptFrame [.jumpIfFalse 3]).ip +
             (if (Constant.none).is_falsey then 3 else 0) + 1 }]⟩ ∧
    ((Constant.none).is_falsey = true ↔
      (Constant.none = .bool false ∨ Constant.none = .none)) :=
  jump_if_false_peeks_truthiness natives0 [] (scriptFrame [.jumpIfFalse 3])
    [] 3 Constant.none [] rfl

/-- C9: IndexInto pops the index then the subject; a non-Number index
is the invalid-index error; a String subject yields the one-character
string at the (truncated) position or None when out of bounds; an
Array subject yields the element or None; any other subject is the
not-indexable error. -/
theorem index_into_semantics
    (natives : Nat → List Constant → Constant)
    (globals : List (String × Constant)) (frame : CallFrame)
    (rest : List CallFrame) (st : List Constant)
    (hin : currentInstruction frame = some Instruction.indexInto) :
    (∀ (q : ℚ) (s : String),
      interpretStep natives
          ⟨.number q :: .string s :: st, globals, frame :: rest⟩ =
        .ok ⟨(match s.data.get? (f64_as_usize q) with
               | some c => .string (String.singleton c)
               | Option.none => Constant.none) :: st, globals,
             bumpIp frame 1 :: rest⟩) ∧
    (∀ (q : ℚ) (xs : List Constant),
      interpretStep natives
          ⟨.number q :: .array xs :: st, globals, frame :: rest⟩ =
        .ok ⟨((xs.get? (f64_as_usize q)).getD Constant.none) :: st,
             globals, bumpIp frame 1 :: rest⟩) ∧
    (∀ idx subject : Constant, (∀ q : ℚ, idx ≠ .number q) →
      interpretStep natives
          ⟨idx :: subject :: st, globals, frame :: rest⟩ =
        .err .invalidIndex) ∧
    (∀ (q : ℚ) (subject : Constant),
      (∀ s, subject ≠ .string s) → (∀ xs, subject ≠ .array xs) →
      interpretStep natives
          ⟨.number q :: subject :: st, globals, frame :: rest⟩ =
        .err (.notIndexable subject.get_pretty_type)) := by
  refine ⟨?_, ?_, ?_, ?_⟩
  · intro q s
    simp [interpretStep, hin]
  · intro q xs
    simp [interpretStep, hin]
  · intro idx subject h
    rcases idx with n | b | s | f | m | arr | _
    · exact absurd rfl (h n)
    all_goals simp [interpretStep, hin]
  · intro q subject hs hx
    rcases subject with n | b | s | f | m | arr | _
    · simp [interpretStep, hin]
    · simp [interpretStep, hin]
    · exact absurd rfl (hs s)
    · simp [interpretStep, hin]
    · simp [interpretStep, hin]
    · exact absurd rfl (hx arr)
    · simp [interpretStep, hin]

/-- C9 witness: indexing the string "hello" at 1 yields "e"; indexing
the array 10, 20, 30 at 5 yields None; a Bool index is the
invalid-index error; a Number subject is the not-indexable error. -/
theorem index_into_semantics_witness :
    interpretStep natives0
        ⟨[.number 1, .string "hello"], [], [scriptFrame [.indexInto]]⟩ =
      .ok ⟨[(match "hello".data.get? (f64_as_usize 1) with
             | some c => Constant.string (String.singleton c)
             | Option.none => Constant.none)], [],
           [bumpIp (scriptFrame [.indexInto]) 1]⟩ ∧
    interpretStep natives0
        ⟨[.number 5,
          .array [.number 10, .number 20, .number 30]], [],
         [scriptFrame [.indexInto]]⟩ =
      .ok ⟨[(([Constant.number 10, .number 20,
               .number 30].get? (f64_as_usize 5)).getD Constant.none)],
           [], [bumpIp (scriptFrame [.indexInto]) 1]⟩ ∧
    interpretStep natives0
        ⟨[.bool true, .string "hello"], [], [scriptFrame [.indexInto]]⟩ =
      .err .invalidIndex ∧
    interpretStep natives0
        ⟨[.number 0, .number 3], [], [scriptFrame [.indexInto]]⟩ =
      .err (.notIndexable (Constant.number 3).get_pretty_type) := by
  refine ⟨?_, ?_, ?_, ?_⟩
  · exact (index_into_semantics natives0 [] (scriptFrame [.indexInto])
      [] [] rfl).1 1 "hello"
  · exact (index_into_semantics natives0 [] (scriptFrame [.indexInto])
      [] [] rfl).2.1 5 [.number 10, .number 20, .number 30]
  · exact (index_into_semantics natives0 [] (scriptFrame [.indexInto])
      [] [] rfl).2.2.1 (.bool true) (.string "hello")
      (fun q h => Constant.noConfusion h)
  · exact (index_into_semantics natives0 [] (scriptFrame [.indexInto])
      [] [] rfl).2.2.2 0 (.number 3)
      (fun s h => Constant.noConfusion h)
      (fun xs h => Constant.noConfusion h)

/-- C10: Equal and NotEqual always pop two operands and push a Bool
(never an error), and the embedded PartialEq returns false on any
Function, BuiltInMethod or Array operand - even compared against the
very same value. -/
theorem equal_not_equal_total
    (natives : Nat → List Constant → Constant)
    (globals : List (String × Constant)) (frame : CallFrame)
    (rest : List CallFrame) (st : List Constant) :
    (∀ b a : Constant, currentInstruction frame = some Instruction.equal →
      interpretStep natives ⟨b :: a :: st, globals, frame :: rest⟩ =
        .ok ⟨.bool (a.eq b) :: st, globals, bumpIp frame 1 :: rest⟩) ∧
    (∀ b a : Constant,
      currentInstruction frame = some Instruction.notEqual →
      interpretStep natives ⟨b :: a :: st, globals, frame :: rest⟩ =
        .ok ⟨.bool (!a.eq b) :: st, globals, bumpIp frame 1 :: rest⟩) ∧
    (∀ f, Constant.eq (.function f) (.function f) = false) ∧
    (∀ m, Constant.eq (.builtInMethod m) (.builtInMethod m) = false) ∧
    (∀ xs, Constant.eq (.array xs) (.array xs) = false) := by
  refine ⟨?_, ?_, fun f => rfl, fun m => rfl, fun xs => rfl⟩
  · intro b a hin
    simp [interpretStep, hin]
  · intro b a hin
    simp [interpretStep, hin]

/-- C10 witness: Equal on two copies of the same script function value
pushes Bool(false) and succeeds; NotEqual on them pushes Bool(true). -/
theorem equal_not_equal_total_witness :
    interpretStep natives0
        ⟨[.function someFunc, .function someFunc], [],
         [scriptFrame [.equal]]⟩ =
      .ok ⟨[.bool ((Constant.function someFunc).eq
              (.function someFunc))], [],
           [bumpIp (scriptFrame [.equal]) 1]⟩ ∧
    interpretStep natives0
        ⟨[.function someFunc, .function someFunc], [],
         [scriptFrame [.notEqual]]⟩ =
      .ok ⟨[.bool (!(Constant.function someFunc).eq
              (.function someFunc))], [],
           [bumpIp (scriptFrame [.notEqual]) 1]⟩ ∧
    Constant.eq (.function someFunc) (.function someFunc) = false := by
  refine ⟨?_, ?_, ?_⟩
  · exact (equal_not_equal_total natives0 [] (scriptFrame [.equal])
      [] []).1 (.function someFunc) (.function someFunc) rfl
  · exact (equal_not_equal_total natives0 [] (scriptFrame [.notEqual])
      [] []).2.1 (.function someFunc) (.function someFunc) rfl
  · exact (equal_not_equal_total natives0 [] (scriptFrame [.equal])
      [] []).2.2.1 someFunc

end Custos
